import Mathlib

/-!
Shallow embedding of the rendering-backend layer of the slint repository:
the winit FemtoVG renderer backends (`src/internal/backends/winit/renderer/femtovg.rs`
together with the WGPU graphics backend in `src/internal/renderers/femtovg/wgpu.rs`),
the Skia renderer (`src/internal/renderers/skia/lib.rs`) and its OpenGL surface
(`src/internal/renderers/skia/opengl_surface.rs`), plus the text-layout entry point
(`src/internal/core/cosmic_text.rs`).

Modelling conventions:
* `f32` values are modelled as `ℚ`; the operations the claims exercise
  (multiplication by a scale factor, comparison with zero, ceiling, division)
  are exact on the inputs involved, so no rounding model is needed.
* External collaborators (the cosmic-text shaping library, the grapheme
  segmenter, glutin's native GL calls) are passed in as explicit oracle
  functions; the repository code that calls them is transcribed faithfully.
* Fallible Rust functions returning `Result` become `Except String`
  (or a dedicated error type).
-/

/-- `f32::MAX` = (2 - 2⁻²³) · 2¹²⁷, the value cosmic-text receives as the
"unconstrained" size bound. -/
def F32_MAX : ℚ := 2 ^ 128 - 2 ^ 104

/-- Modelled from the spec: `textlayout::DEFAULT_FONT_SIZE`, the default font
size used when the font request carries no pixel size.  The `textlayout`
module is not part of the sources; none of the claims depend on the value. -/
def DEFAULT_FONT_SIZE : ℚ := 12

/-- The only field of `i_slint_core::graphics::FontRequest` the embedded
functions read: `pixel_size : Option<LogicalLength>`. -/
structure FontRequest where
  pixel_size : Option ℚ
deriving DecidableEq

/- ----------------------------------------------------------------------
C1: winit FemtoVG renderer backends, suspend / resume lifecycle
(`src/internal/backends/winit/renderer/femtovg.rs`,
 `src/internal/renderers/femtovg/wgpu.rs`).
---------------------------------------------------------------------- -/

/-- GPU resources of `WGPUBackend` (`wgpu.rs` lines 10-14): three
`RefCell<Option<...>>` cells holding device, surface configuration and
surface.  Handles are modelled as numbers. -/
structure WGPUBackend where
  device : Option ℕ
  surface_config : Option ℕ
  surface : Option ℕ
deriving DecidableEq

/-- `WGPUBackend::new_suspended` (`wgpu.rs` lines 30-36): all cells empty. -/
def WGPUBackend.new_suspended : WGPUBackend :=
  { device := none, surface_config := none, surface := none }

/-- `WGPUBackend::clear_graphics_context` (`wgpu.rs` lines 38-41):
`self.surface.borrow_mut().take(); self.device.borrow_mut().take();`
(the surface configuration cell is left in place). -/
def WGPUBackend.clear_graphics_context (b : WGPUBackend) : WGPUBackend :=
  { b with surface := none, device := none }

/-- `WGPUBackend::set_window_handle` (`wgpu.rs` lines 91-165), success path:
stores a freshly created device, surface configuration and surface in the
three cells. -/
def WGPUBackend.set_window_handle (b : WGPUBackend) (dev cfg surf : ℕ) : WGPUBackend :=
  { b with device := some dev, surface_config := some cfg, surface := some surf }

/-- `WGPUFemtoVGRenderer` (`femtovg.rs` lines 96-100): the FemtoVG renderer
over the WGPU backend plus the `suspended : Cell<bool>` flag. -/
structure WGPUFemtoVGRenderer where
  backend : WGPUBackend
  suspended : Bool
deriving DecidableEq

/-- `WGPUFemtoVGRenderer::new_suspended` (`femtovg.rs` lines 104-110). -/
def WGPUFemtoVGRenderer.new_suspended : WGPUFemtoVGRenderer :=
  { backend := WGPUBackend.new_suspended, suspended := true }

/-- `WGPUFemtoVGRenderer::resume` (`femtovg.rs` lines 127-150), success path:
window creation and `set_window_handle` succeed, then `self.suspended.set(false)`. -/
def WGPUFemtoVGRenderer.resume (r : WGPUFemtoVGRenderer) (dev cfg surf : ℕ) :
    WGPUFemtoVGRenderer :=
  { backend := r.backend.set_window_handle dev cfg surf, suspended := false }

/-- `WGPUFemtoVGRenderer::suspend` (`femtovg.rs` lines 123-125): the body is
exactly `self.renderer.clear_graphics_context()` — the `suspended` cell is
not written. -/
def WGPUFemtoVGRenderer.suspend (r : WGPUFemtoVGRenderer) : WGPUFemtoVGRenderer :=
  { r with backend := r.backend.clear_graphics_context }

/-- `WGPUFemtoVGRenderer::is_suspended` (`femtovg.rs` lines 152-154). -/
def WGPUFemtoVGRenderer.is_suspended (r : WGPUFemtoVGRenderer) : Bool :=
  r.suspended

/-- `GlutinFemtoVGRenderer` (`femtovg.rs` lines 23-26): the FemtoVG OpenGL
renderer plus the `suspended : Cell<bool>` flag.  Its
`FemtoVGOpenGLRenderer::clear_graphics_context` lives outside the given
sources; per the spec it releases the GPU context, modelled as a single
optional resource cell. -/
structure GlutinFemtoVGRenderer where
  opengl_context : Option ℕ
  suspended : Bool
deriving DecidableEq

/-- `GlutinFemtoVGRenderer::new_suspended` (`femtovg.rs` lines 29-34). -/
def GlutinFemtoVGRenderer.new_suspended : GlutinFemtoVGRenderer :=
  { opengl_context := none, suspended := true }

/-- `GlutinFemtoVGRenderer::resume` (`femtovg.rs` lines 46-85), success path:
creates the OpenGL context, hands it to the renderer, then
`self.suspended.set(false)`. -/
def GlutinFemtoVGRenderer.resume (_r : GlutinFemtoVGRenderer) (ctx : ℕ) :
    GlutinFemtoVGRenderer :=
  { opengl_context := some ctx, suspended := false }

/-- `GlutinFemtoVGRenderer::suspend` (`femtovg.rs` lines 87-89): the body is
exactly `self.renderer.clear_graphics_context()` — the `suspended` cell is
not written.  Modelled from the spec: `clear_graphics_context` of the
FemtoVG OpenGL renderer (outside the sources) releases all GPU resources
and is idempotent if already suspended. -/
def GlutinFemtoVGRenderer.suspend (r : GlutinFemtoVGRenderer) : GlutinFemtoVGRenderer :=
  { r with opengl_context := none }

/-- `GlutinFemtoVGRenderer::is_suspended` (`femtovg.rs` lines 91-93). -/
def GlutinFemtoVGRenderer.is_suspended (r : GlutinFemtoVGRenderer) : Bool :=
  r.suspended

/- ----------------------------------------------------------------------
C2: `SkiaRenderer::set_rendering_notifier` (`lib.rs` lines 462-475).
---------------------------------------------------------------------- -/

/-- `i_slint_core::api::SetRenderingNotifierError`: the two error cases used
by `SkiaRenderer::set_rendering_notifier`. -/
inductive SetRenderingNotifierError where
  | unsupported
  | alreadySet
deriving DecidableEq

/-- `SkiaRenderer::set_rendering_notifier` (`lib.rs` lines 462-475) acting on
the `rendering_notifier : RefCell<Option<Box<dyn RenderingNotifier>>>` state,
callbacks modelled as numbers.  Transcription: if the surface does not
support the graphics API, fail with `Unsupported`; otherwise
`notifier.replace(callback)` stores the new callback and the old value
decides between `Err(AlreadySet)` and `Ok(())`.  Returns (result, new state). -/
def set_rendering_notifier (supports_graphics_api : Bool) (rendering_notifier : Option ℕ)
    (callback : ℕ) : Except SetRenderingNotifierError Unit × Option ℕ :=
  if !supports_graphics_api then
    (Except.error SetRenderingNotifierError.unsupported, rendering_notifier)
  else
    match rendering_notifier with
    | some _ => (Except.error SetRenderingNotifierError.alreadySet, some callback)
    | none => (Except.ok (), some callback)

/- ----------------------------------------------------------------------
C3: `SkiaRenderer::text_size` (`lib.rs` lines 198-252).
---------------------------------------------------------------------- -/

/-- Oracle for the external cosmic-text shaping library: given the text, the
font size (= line height), the width bound and the height bound passed to
`Buffer::set_size`, it returns, for each buffer line of the text (one per
source line), the widths `line.w` of that line's layout lines. -/
abbrev Shaper := String → ℚ → ℚ → ℚ → List (List ℚ)

/-- `SkiaRenderer::text_size` (`lib.rs` lines 198-252).  Transcription:
`pixel_size = font_request.pixel_size.unwrap_or(DEFAULT_FONT_SIZE) * scale_factor`;
the buffer is shaped and then sized with
`set_size(max_width.map(|w| w * scale_factor).unwrap_or_default().get(), f32::MAX)`
— note `unwrap_or_default()` yields a zero length when `max_width` is `None`;
`width` is the running `f32` maximum (starting at `0.0`) of all layout-line
widths, `height = buffer.lines.len() * line_height`, and the result is
`PhysicalSize::new(width.ceil(), height.ceil()) / scale_factor`. -/
def text_size (shape : Shaper) (font_request : FontRequest) (text : String)
    (max_width : Option ℚ) (scale_factor : ℚ) : ℚ × ℚ :=
  let pixel_size := (font_request.pixel_size.getD DEFAULT_FONT_SIZE) * scale_factor
  let width_bound := (max_width.map (fun w => w * scale_factor)).getD 0
  let lines := shape text pixel_size width_bound F32_MAX
  let width := lines.foldl (fun acc layout => layout.foldl max acc) 0
  let height := (lines.length : ℚ) * pixel_size
  ((⌈width⌉ : ℚ) / scale_factor, (⌈height⌉ : ℚ) / scale_factor)

/-- Modelled from the spec (refinement contrast for C3): the same measurement
but shaping "constrained to `max_width` (unconstrained if absent)", i.e. the
width bound is `f32::MAX` when `max_width` is `None` — the pattern
`max_width.map_or(f32::MAX, |w| w.get())` that `TextLayout::new`
(`cosmic_text.rs` lines 46-50) uses. -/
def text_size_spec (shape : Shaper) (font_request : FontRequest) (text : String)
    (max_width : Option ℚ) (scale_factor : ℚ) : ℚ × ℚ :=
  let pixel_size := (font_request.pixel_size.getD DEFAULT_FONT_SIZE) * scale_factor
  let width_bound := (max_width.map (fun w => w * scale_factor)).getD F32_MAX
  let lines := shape text pixel_size width_bound F32_MAX
  let width := lines.foldl (fun acc layout => layout.foldl max acc) 0
  let height := (lines.length : ℚ) * pixel_size
  ((⌈width⌉ : ℚ) / scale_factor, (⌈height⌉ : ℚ) / scale_factor)

/-- A shaper whose layout depends on whether the width bound is zero:
it reports one line of width 10 under a zero bound and width 20 otherwise.
(Any real layout engine distinguishes the two bounds as well: a zero-width
bound forces word wrapping.) -/
def boundSensitiveShaper : Shaper :=
  fun _ _ width_bound _ => [[if width_bound = 0 then 10 else 20]]

/- ----------------------------------------------------------------------
C4: `SkiaRenderer::render` background handling (`lib.rs` lines 114-186).
---------------------------------------------------------------------- -/

/-- Modelled from the spec: the window background brush kinds — a solid
color, or a gradient/image brush that cannot be drawn via `clear`.
`SkiaRenderer::render` only distinguishes `Brush::SolidColor(..)` from every
other brush. -/
inductive Brush where
  | solidColor (color : ℕ)
  | linearGradient (gradient : ℕ)
  | radialGradient (gradient : ℕ)
  | image (img : ℕ)
deriving DecidableEq

/-- Whether a brush is `Brush::SolidColor(..)`. -/
def Brush.isSolidColor : Brush → Bool
  | .solidColor _ => true
  | _ => false

/-- The four lifecycle points of `i_slint_core::api::RenderingState`. -/
inductive RenderingState where
  | renderingSetup
  | beforeRendering
  | afterRendering
  | renderingTeardown
deriving DecidableEq

/-- One observable drawing action issued by the frame callback of
`SkiaRenderer::render` (`lib.rs` lines 121-185). -/
inductive RenderCmd where
  | clear (color : ℕ)
  | flush
  | notify (state : RenderingState)
  | drawBackgroundRect (brush : Brush)
  | renderComponent (component : ℕ)
  | measureFrame
deriving DecidableEq

/-- The sequence of drawing actions `SkiaRenderer::render` issues for one
frame (`lib.rs` lines 121-185), in source order:
1. `skia_canvas.clear(color)` if the window background is `Some(SolidColor)`;
2. if a rendering notifier is registered: `gr_context.flush` then the
   `BeforeRendering` notification;
3. `item_renderer.draw_rect(size, brush)` for the background brush unless it
   is `Some(SolidColor(..))` or `None`;
4. `render_component_items` for each (component, origin) pair;
5. `measure_frame_rendered` if a metrics collector is attached;
6. `gr_context.flush`;
7. the `AfterRendering` notification if a notifier is registered. -/
def renderFrameCommands (window_background_brush : Option Brush) (has_notifier : Bool)
    (has_metrics_collector : Bool) (components : List ℕ) : List RenderCmd :=
  (match window_background_brush with
   | some (Brush.solidColor clear_color) => [RenderCmd.clear clear_color]
   | _ => []) ++
  (if has_notifier then [RenderCmd.flush, RenderCmd.notify RenderingState.beforeRendering]
   else []) ++
  (match window_background_brush with
   | some (Brush.solidColor _) => []
   | none => []
   | some brush => [RenderCmd.drawBackgroundRect brush]) ++
  components.map RenderCmd.renderComponent ++
  (if has_metrics_collector then [RenderCmd.measureFrame] else []) ++
  [RenderCmd.flush] ++
  (if has_notifier then [RenderCmd.notify RenderingState.afterRendering] else [])

/-- Whether a command is a canvas clear. -/
def RenderCmd.isClear : RenderCmd → Bool
  | .clear _ => true
  | _ => false

/-- Whether a command draws the background rectangle. -/
def RenderCmd.isDrawBackgroundRect : RenderCmd → Bool
  | .drawBackgroundRect _ => true
  | _ => false

/-- Whether a command renders a component. -/
def RenderCmd.isRenderComponent : RenderCmd → Bool
  | .renderComponent _ => true
  | _ => false

/- ----------------------------------------------------------------------
C5 / C6: text-input hit testing and cursor rectangle
(`lib.rs` lines 254-307 and 309-442).
---------------------------------------------------------------------- -/

/-- Rust `as i32` on an `f32`: truncation toward zero. -/
def asI32 (q : ℚ) : ℤ :=
  if 0 ≤ q then ⌊q⌋ else -⌊-q⌋

/-- Rust `f32::round`: rounding half away from zero. -/
def f32Round (q : ℚ) : ℤ :=
  if 0 ≤ q then ⌊q + 1 / 2⌋ else ⌈q - 1 / 2⌉

/-- The fields of `i_slint_core::items::TextInput` the embedded functions
read: the logical width/height, the text, the `cursor_position_byte_offset`
float property and the configured cursor width. -/
structure TextInput where
  width : ℚ
  height : ℚ
  text : String
  cursor_position_byte_offset : ℚ
  text_cursor_width : ℚ
deriving DecidableEq

/-- One shaped glyph of a cosmic-text layout run: byte range
`[start, «end»)` into the run's text, x position, advance width and
bidirectional level (right-to-left or not). -/
structure Glyph where
  start : ℕ
  «end» : ℕ
  x : ℚ
  w : ℚ
  level_is_rtl : Bool
deriving DecidableEq

/-- One cosmic-text layout run: the buffer line index it belongs to, its
baseline y, its glyphs in visual order and the run's source text. -/
structure LayoutRun where
  line_i : ℕ
  line_y : ℚ
  glyphs : List Glyph
  text : String
deriving DecidableEq

/-- Oracle for the external cosmic-text `Buffer::hit` query: given text,
font size, the width/height bounds passed to `set_size` and a physical
position, it returns the cursor byte index under the position, if any. -/
abbrev HitOracle := String → ℚ → ℚ → ℚ → ℚ → ℚ → Option ℕ

/-- Oracle for the external unicode-segmentation call
`run.text[glyph.start..glyph.end].grapheme_indices(true)`: given the run
text and the byte range of a glyph cluster, the byte indices (relative to
the cluster start) at which grapheme clusters begin. -/
abbrev GraphemeOracle := String → ℕ → ℕ → List ℕ

/-- Oracle for the external cosmic-text layout: given text, font size and
the width/height bounds passed to `set_size`, the resulting
`buffer.layout_runs()`. -/
abbrev RunsOracle := String → ℚ → ℚ → ℚ → List LayoutRun

/-- `SkiaRenderer::text_input_byte_offset_for_position`
(`lib.rs` lines 254-307).  Transcription: scale the constraints and the
position; return 0 early if either constraint is non-positive; otherwise
shape with both bounds, take `buffer.hit(pos.x, pos.y)`'s index (0 when the
hit misses) and map it through the visual representation's
`map_byte_offset_from_byte_offset_in_visual_text`. -/
def text_input_byte_offset_for_position (hit : HitOracle) (visual_to_logical : ℕ → ℕ)
    (text_input : TextInput) (pos : ℚ × ℚ) (font_request : FontRequest)
    (scale_factor : ℚ) : ℕ :=
  let max_width := text_input.width * scale_factor
  let max_height := text_input.height * scale_factor
  let pos := (pos.1 * scale_factor, pos.2 * scale_factor)
  if max_width ≤ 0 ∨ max_height ≤ 0 then 0
  else
    let pixel_size := (font_request.pixel_size.getD DEFAULT_FONT_SIZE) * scale_factor
    let byte_offset :=
      (hit text_input.text pixel_size max_width max_height pos.1 pos.2).getD 0
    visual_to_logical byte_offset

/-- The glyph-scanning loop of the `cursor_glyph_opt` closure
(`lib.rs` lines 359-377): walk the run's glyphs in order; at an exact
cluster start return that glyph with offset 0; strictly inside a cluster,
interpolate the x offset linearly by grapheme position within the cluster. -/
def findCursorGlyph (graphemes : GraphemeOracle) (run_text : String) (cursor_index : ℕ) :
    List Glyph → ℕ → Option (ℕ × ℚ)
  | [], _ => none
  | glyph :: rest, glyph_i =>
    if cursor_index = glyph.start then some (glyph_i, 0)
    else if glyph.start < cursor_index ∧ cursor_index < glyph.«end» then
      let cluster_starts := graphemes run_text glyph.start glyph.«end»
      let before := (cluster_starts.filter (fun i => glyph.start + i < cursor_index)).length
      let total := cluster_starts.length
      some (glyph_i, glyph.w * (before : ℚ) / (total : ℚ))
    else findCursorGlyph graphemes run_text cursor_index rest (glyph_i + 1)

/-- The `cursor_glyph_opt` closure (`lib.rs` lines 357-391): only runs on
the cursor's line participate; after the glyph scan, a cursor exactly at the
end of the last glyph sits one past the last glyph, and an empty run yields
glyph 0. -/
def cursor_glyph_opt (graphemes : GraphemeOracle) (run : LayoutRun)
    (cursor_line cursor_index : ℕ) : Option (ℕ × ℚ) :=
  if cursor_line = run.line_i then
    match findCursorGlyph graphemes run.text cursor_index run.glyphs 0 with
    | some r => some r
    | none =>
      match run.glyphs.getLast? with
      | some glyph =>
        if cursor_index = glyph.«end» then some (run.glyphs.length, 0) else none
      | none => some (0, 0)
  else none

/-- The x coordinate computed from a located cursor glyph
(`lib.rs` lines 399-422): leading edge of the detected glyph (trailing edge
when right-to-left); past the last glyph, the line's trailing edge; 0 on an
empty line.  The Rust code casts through `i32`. -/
def runCursorX (run : LayoutRun) (cursor_glyph : ℕ) (cursor_glyph_offset : ℚ) : ℤ :=
  match run.glyphs.get? cursor_glyph with
  | some glyph =>
    if glyph.level_is_rtl then asI32 (glyph.x + glyph.w - cursor_glyph_offset)
    else asI32 (glyph.x + cursor_glyph_offset)
  | none =>
    match run.glyphs.getLast? with
    | some glyph =>
      if glyph.level_is_rtl then asI32 glyph.x else asI32 (glyph.x + glyph.w)
    | none => 0

/-- A logical rectangle (origin, size), all components in logical units. -/
structure LogicalRect where
  x : ℚ
  y : ℚ
  width : ℚ
  height : ℚ
deriving DecidableEq

/-- `SkiaRenderer::text_input_cursor_rect_for_byte_offset`
(`lib.rs` lines 309-442).  Transcription: return the default (empty)
rectangle early if either scaled constraint is non-positive; otherwise walk
`buffer.layout_runs()` and, for each run in which `cursor_glyph_opt` locates
the cursor `Cursor::new(0, text_input.cursor_position_byte_offset().round() as usize)`
— note: the `byte_offset` argument is never read — set
`cursor_x`/`cursor_y` (initially 0/0) to the computed x and to
`line_y - pixel_size`; finally build the physical rectangle at
(`cursor_x`, `cursor_y`) of size (cursor width × scale factor, pixel size)
and divide it by the scale factor. -/
def text_input_cursor_rect_for_byte_offset (graphemes : GraphemeOracle)
    (layout_runs : RunsOracle) (text_input : TextInput) (byte_offset : ℕ)
    (font_request : FontRequest) (scale_factor : ℚ) : LogicalRect :=
  let max_width := text_input.width * scale_factor
  let max_height := text_input.height * scale_factor
  if max_width ≤ 0 ∨ max_height ≤ 0 then ⟨0, 0, 0, 0⟩
  else
    let pixel_size := (font_request.pixel_size.getD DEFAULT_FONT_SIZE) * scale_factor
    let runs := layout_runs text_input.text pixel_size max_width max_height
    let cursor_index := (f32Round text_input.cursor_position_byte_offset).toNat
    let cursor := runs.foldl
      (fun (acc : ℚ × ℚ) run =>
        match cursor_glyph_opt graphemes run 0 cursor_index with
        | some (cursor_glyph, cursor_glyph_offset) =>
          ((runCursorX run cursor_glyph cursor_glyph_offset : ℚ), run.line_y - pixel_size)
        | none => acc)
      (0, 0)
    ⟨cursor.1 / scale_factor, cursor.2 / scale_factor,
     text_input.text_cursor_width * scale_factor / scale_factor,
     pixel_size / scale_factor⟩

/- ----------------------------------------------------------------------
C9 / C10: `OpenGLSurface::make_context_current` /
`make_context_not_current` (`opengl_surface.rs` lines 16-34, 409-458).
---------------------------------------------------------------------- -/

/-- `ContextState` (`opengl_surface.rs` lines 16-19).  The
`Rc<PossiblyCurrentContext>` of the `Current` variant is modelled by the
number `handles` of outstanding caller-held clones of the stored `Rc`
(`Rc::try_unwrap` on the stored one succeeds exactly when `handles = 0`).
Native context identities are numbers. -/
inductive ContextState where
  | current (handles : ℕ) (ctx : ℕ)
  | notCurrent (ctx : ℕ)
deriving DecidableEq

/-- `OpenGLSurface::make_context_current` (`opengl_surface.rs` lines
409-430) acting on the taken contents of the
`context : RefCell<Option<ContextState>>` cell.  Returns the result (the
handed-out handle's context id together with whether a native make-current
acquisition was performed) and the cell contents on exit.  The external
`make_current` call may fail (`acquire_ok = false`); the `?` on that call
exits with the cell still empty (`none`), since the state was `take()`n. -/
def make_context_current (acquire_ok : Bool) :
    ContextState → Except String (ℕ × Bool) × Option ContextState
  | ContextState.current handles ctx =>
    (Except.ok (ctx, false), some (ContextState.current (handles + 1) ctx))
  | ContextState.notCurrent ctx =>
    if acquire_ok then (Except.ok (ctx, true), some (ContextState.current 1 ctx))
    else (Except.error "Skia Renderer: Error making context current", none)

/-- `OpenGLSurface::make_context_not_current` (`opengl_surface.rs` lines
432-458) acting on the taken cell contents, with the caller's handle being
one of the `handles` outstanding clones.  Dropping it leaves `handles - 1`;
`Rc::try_unwrap` then moves to `NotCurrent` exactly when none remain,
otherwise the state stays `Current`.  On a `NotCurrent` state the taken
value is put back unchanged.  Both branches return `Ok(())`. -/
def make_context_not_current :
    ContextState → Except String Unit × Option ContextState
  | ContextState.current handles ctx =>
    if handles - 1 = 0 then (Except.ok (), some (ContextState.notCurrent ctx))
    else (Except.ok (), some (ContextState.current (handles - 1) ctx))
  | ContextState.notCurrent ctx =>
    (Except.ok (), some (ContextState.notCurrent ctx))

/- ----------------------------------------------------------------------
C7: `OpenGLSurface::render` on Windows (`opengl_surface.rs` lines 143-190).
---------------------------------------------------------------------- -/

/-- The process-wide WGL state of the calling thread: which native context
(if any) is current.  This is what `wgl::GetCurrentDC`/`GetCurrentContext`
read and `wgl::MakeCurrent` writes. -/
structure GlThread where
  current : Option ℕ
deriving DecidableEq

/-- `OpenGLSurface::render` on Windows (`opengl_surface.rs` lines 143-190),
tracking only the thread's process-wide current-context state.
Transcription: save `old_hdc`/`old_hrc`; `make_context_current()?` (on
success the surface's own context `our_ctx` becomes current; a failed
native make-current leaves the thread binding unchanged); recreate the
internal surface if the size changed, `?`-propagating failure; run the
callback; `swap_buffers(..)?`; `make_context_not_current(..)?` (which
unbinds the thread when the handle was the last one); and only then —
after all the `?` early returns — `wgl::MakeCurrent(old_hdc, old_hrc)`.
Returns the result and the thread state on exit. -/
def OpenGLSurface.render (st : GlThread) (our_ctx : ℕ) (make_current_ok : Bool)
    (needs_recreate : Bool) (recreate_ok : Bool) (swap_ok : Bool)
    (last_handle : Bool) : Except String Unit × GlThread :=
  let old := st.current
  if make_current_ok then
    let st1 : GlThread := ⟨some our_ctx⟩
    if needs_recreate && !recreate_ok then
      (Except.error "Skia OpenGL Renderer: Failed to allocate internal backend rendering target",
       st1)
    else if !swap_ok then
      (Except.error "Skia OpenGL Renderer: Error swapping buffers", st1)
    else
      let st2 : GlThread := if last_handle then ⟨none⟩ else ⟨some our_ctx⟩
      (Except.ok (), { st2 with current := old })
  else
    (Except.error "Skia Renderer: Error making context current", st)

/- ----------------------------------------------------------------------
C8: GL config selection in `OpenGLSurface::init_glutin`
(`opengl_surface.rs` lines 291-306).
---------------------------------------------------------------------- -/

/-- The two properties of a `glutin::config::Config` the reduction reads:
`supports_transparency() : Option<bool>` and `num_samples() : u8`. -/
structure GlConfig where
  supports_transparency : Option Bool
  num_samples : ℕ
deriving DecidableEq

/-- The closure of the `reduce` in `init_glutin` (`opengl_surface.rs` lines
294-304): the candidate `config` replaces the accumulator if it supports
transparency while the accumulator does not, or if it has strictly fewer
samples. -/
def configReduceStep (accum config : GlConfig) : GlConfig :=
  let transparency_check :=
    (config.supports_transparency.getD false) && !(accum.supports_transparency.getD false)
  if transparency_check || config.num_samples < accum.num_samples then config else accum

/-- `Iterator::reduce` over the found configs with `configReduceStep`
(`opengl_surface.rs` lines 291-306); `None` when no config was found. -/
def reduceConfigs : List GlConfig → Option GlConfig
  | [] => none
  | config :: rest => some (rest.foldl configReduceStep config)

/- ----------------------------------------------------------------------
Concrete fixtures: a two-glyph left-to-right single-line layout of the
text "ab" (glyph widths 10 at x = 0 and x = 10, font size 16), used to
evaluate the text-input queries on explicit inputs.
---------------------------------------------------------------------- -/

/-- A text input of size 100×20 showing "ab", with the input's own cursor
at byte offset 0 and a cursor width of 1. -/
def demoTextInput : TextInput :=
  { width := 100, height := 20, text := "ab",
    cursor_position_byte_offset := 0, text_cursor_width := 1 }

/-- Font request asking for pixel size 16. -/
def demoFontRequest : FontRequest := { pixel_size := some 16 }

/-- Layout oracle for the fixture: one run on buffer line 0 with baseline
y = 16 and two left-to-right glyphs covering bytes [0,1) and [1,2). -/
def demoRuns : RunsOracle := fun _ _ _ _ =>
  [{ line_i := 0, line_y := 16,
     glyphs := [{ start := 0, «end» := 1, x := 0, w := 10, level_is_rtl := false },
                { start := 1, «end» := 2, x := 10, w := 10, level_is_rtl := false }],
     text := "ab" }]

/-- Grapheme oracle for the fixture: every glyph cluster is a single
grapheme starting at its first byte. -/
def demoGraphemes : GraphemeOracle := fun _ _ _ => [0]

/-- Hit oracle for the fixture, matching cosmic-text's behavior on the
layout of `demoRuns`: positions left of the first glyph's midpoint map to
byte 0, the rest of the first glyph to byte 1. -/
def demoHit : HitOracle := fun _ _ _ _ x _ =>
  if x < 5 then some 0 else some 1

/- ----------------------------------------------------------------------
Theorems.
---------------------------------------------------------------------- -/

/-- C1: contrary to the claim, `suspend()` after a successful `resume()`
leaves `is_suspended()` returning `false` for both backends, because the
`suspend` bodies (`femtovg.rs` lines 87-89 and 123-125) never write the
`suspended` cell; the second half of the claim does hold: a second
`suspend()` is a no-op that also succeeds. -/
theorem C1_suspend_flag_bug :
    (WGPUFemtoVGRenderer.new_suspended.resume 1 2 3).suspend.is_suspended = false
    ∧ (GlutinFemtoVGRenderer.new_suspended.resume 1).suspend.is_suspended = false
    ∧ (∀ r : WGPUFemtoVGRenderer, r.suspend.suspend = r.suspend)
    ∧ (∀ r : GlutinFemtoVGRenderer, r.suspend.suspend = r.suspend) :=
  ⟨rfl, rfl, fun _ => rfl, fun _ => rfl⟩

/-- C2 counterexample: the claim "the first registered callback remains the
active one (the renderer's notifier state is unchanged by the failing
call)" is false: with callback 1 registered, a second
`set_rendering_notifier` with callback 2 fails with `AlreadySet` yet leaves
callback 2, not 1, stored. -/
theorem C2_counterexample :
    (set_rendering_notifier true (some 1) 2).1
        = Except.error SetRenderingNotifierError.alreadySet
    ∧ (set_rendering_notifier true (some 1) 2).2 ≠ some 1 := by
  exact ⟨rfl, by decide⟩

/-- C2 (amended): on a surface that supports the graphics API, the first
`set_rendering_notifier` call succeeds and stores the callback; every
subsequent call fails with `AlreadySet` but replaces the registered
callback with the newly supplied one (`Option::replace`), so the first
callback does not remain active. -/
theorem C2_amended_replace_semantics :
    (∀ callback : ℕ,
        set_rendering_notifier true none callback = (Except.ok (), some callback))
    ∧ (∀ old callback : ℕ,
        set_rendering_notifier true (some old) callback
          = (Except.error SetRenderingNotifierError.alreadySet, some callback)) :=
  ⟨fun _ => rfl, fun _ _ => rfl⟩

/-- C9: `make_context_current` is reentrant — on a `Current` state it hands
out the existing context (the `Bool` component `false` records that no new
native make-current acquisition was performed) and only bumps the
outstanding-handle count — and `make_context_not_current` on a `NotCurrent`
state returns `Ok` and puts the state back unchanged. -/
theorem C9_context_scope_reentrant :
    (∀ (handles ctx : ℕ) (acquire_ok : Bool),
        make_context_current acquire_ok (ContextState.current handles ctx)
          = (Except.ok (ctx, false), some (ContextState.current (handles + 1) ctx)))
    ∧ (∀ ctx : ℕ,
        make_context_not_current (ContextState.notCurrent ctx)
          = (Except.ok (), some (ContextState.notCurrent ctx))) :=
  ⟨fun _ _ _ => rfl, fun _ => rfl⟩

/-- C10 counterexample: the claim "the internal context cell is restored to
a Some(_) state on every exit of either method" is false: when the native
make-current acquisition fails on a `NotCurrent` state, the `?` early
return of `make_context_current` leaves the `take()`n cell empty. -/
theorem C10_counterexample :
    (make_context_current false (ContextState.notCurrent 0)).2 = none
    ∧ (make_context_current false (ContextState.notCurrent 0)).1
        = Except.error "Skia Renderer: Error making context current" :=
  ⟨rfl, rfl⟩

/-- C10 (amended): on every exit of `make_context_current` except its
failing native make-current path — which leaves the cell empty — and on
every exit of `make_context_not_current`, the context cell holds `Some(_)`;
`make_context_not_current` transitions to `NotCurrent` only when the handle
being released is the last outstanding one, and while at least one handle
from an enclosing `make_context_current` is still alive the context remains
`Current`. -/
theorem C10_amended_cell_invariant :
    (∀ s : ContextState, ((make_context_current true s).2).isSome = true)
    ∧ (∀ (handles ctx : ℕ) (acquire_ok : Bool),
        ((make_context_current acquire_ok (ContextState.current handles ctx)).2).isSome = true)
    ∧ (∀ s : ContextState, ((make_context_not_current s).2).isSome = true)
    ∧ (∀ (handles ctx : ℕ),
        make_context_not_current (ContextState.current (handles + 2) ctx)
          = (Except.ok (), some (ContextState.current (handles + 1) ctx)))
    ∧ (∀ ctx : ℕ,
        make_context_not_current (ContextState.current 1 ctx)
          = (Except.ok (), some (ContextState.notCurrent ctx))) := by
  refine ⟨fun s => ?_, fun handles ctx acquire_ok => rfl, fun s => ?_,
    fun handles ctx => ?_, fun ctx => rfl⟩
  · cases s <;> simp [make_context_current]
  · cases s with
    | current handles ctx =>
      by_cases h : handles - 1 = 0 <;> simp [make_context_not_current, h]
    | notCurrent ctx => rfl
  · simp [make_context_not_current]

/-- C7 counterexample: the claim that `OpenGLSurface::render` restores the
external current-context state on every exit path is false: with no context
current at entry, a failing `swap_buffers` makes `render` return an error
while the surface's own context (id 1) is still current on the thread. -/
theorem C7_counterexample :
    (OpenGLSurface.render ⟨none⟩ 1 true false true false true).2 ≠ (⟨none⟩ : GlThread)
    ∧ (OpenGLSurface.render ⟨none⟩ 1 true false true false true).1
        = Except.error "Skia OpenGL Renderer: Error swapping buffers" := by
  exact ⟨by decide, rfl⟩

/-- C7 (amended): `OpenGLSurface::render` restores the calling thread's
prior current-context state only on the successful exit path; on the error
exit paths it returns with whatever context the failing step left current —
in particular, after the make-current step succeeded (surface recreation or
buffer-swap failure) the surface's own context remains current. -/
theorem C7_amended_restore_on_success :
    (∀ (st : GlThread) (our_ctx : ℕ) (needs_recreate last_handle : Bool),
        OpenGLSurface.render st our_ctx true needs_recreate true true last_handle
          = (Except.ok (), st))
    ∧ (∀ (st : GlThread) (our_ctx : ℕ) (last_handle : Bool),
        (OpenGLSurface.render st our_ctx true false true false last_handle).2
          = ⟨some our_ctx⟩)
    ∧ (∀ (st : GlThread) (our_ctx : ℕ) (last_handle : Bool),
        (OpenGLSurface.render st our_ctx true true false true last_handle).2
          = ⟨some our_ctx⟩) := by
  refine ⟨fun st our_ctx needs_recreate last_handle => ?_,
    fun st our_ctx last_handle => rfl, fun st our_ctx last_handle => rfl⟩
  cases needs_recreate <;> rfl

/-- Helper: when both configurations lack transparency support, the reduce
closure degenerates to a strict sample-count comparison. -/
lemma configReduceStep_opaque (accum config : GlConfig)
    (ha : accum.supports_transparency.getD false = false)
    (hc : config.supports_transparency.getD false = false) :
    configReduceStep accum config
      = if config.num_samples < accum.num_samples then config else accum := by
  simp [configReduceStep, ha, hc]

/-- Helper: over a list of configurations none of which supports
transparency, the reduction selects a member of the list with the minimal
sample count. -/
lemma reduceConfigs_opaque_min (rest : List GlConfig) :
    ∀ c : GlConfig, (∀ x ∈ c :: rest, x.supports_transparency.getD false = false) →
      (rest.foldl configReduceStep c).num_samples
          = rest.foldl (fun a x => min a x.num_samples) c.num_samples
      ∧ rest.foldl configReduceStep c ∈ c :: rest := by
  induction rest with
  | nil =>
    intro c _
    exact ⟨rfl, List.mem_cons_self c []⟩
  | cons x xs ih =>
    intro c h
    have hc : c.supports_transparency.getD false = false := h c (by simp)
    have hx : x.supports_transparency.getD false = false := h x (by simp)
    have hstep : configReduceStep c x
        = if x.num_samples < c.num_samples then x else c :=
      configReduceStep_opaque c x hc hx
    have hsamp : (configReduceStep c x).num_samples
        = min c.num_samples x.num_samples := by
      rw [hstep]; split <;> omega
    have hcx : configReduceStep c x = x ∨ configReduceStep c x = c := by
      rw [hstep]
      split
      · exact Or.inl rfl
      · exact Or.inr rfl
    have hopaque : ∀ y ∈ configReduceStep c x :: xs,
        y.supports_transparency.getD false = false := by
      intro y hy
      rcases List.mem_cons.mp hy with h1 | h2
      · rcases hcx with he | he <;> rw [he] at h1 <;> rw [h1] <;> assumption
      · exact h y (List.mem_cons_of_mem c (List.mem_cons_of_mem x h2))
    obtain ⟨ih1, ih2⟩ := ih (configReduceStep c x) hopaque
    constructor
    · rw [List.foldl_cons, List.foldl_cons, ih1, hsamp]
    · rw [List.foldl_cons]
      rcases List.mem_cons.mp ih2 with h1 | h2
      · rw [h1]
        rcases hcx with he | he <;> rw [he]
        · exact List.mem_cons_of_mem c (List.mem_cons_self x xs)
        · exact List.mem_cons_self c (x :: xs)
      · exact List.mem_cons_of_mem c (List.mem_cons_of_mem x h2)

/-- C8 counterexample: the claim that no configuration with transparency is
ever discarded in favor of a non-transparent one merely because the latter
has fewer samples is false: over the candidates
[transparent with 4 samples, non-transparent with 0 samples] the reduction
selects the non-transparent configuration. -/
theorem C8_counterexample :
    reduceConfigs
        [{ supports_transparency := some true, num_samples := 4 },
         { supports_transparency := some false, num_samples := 0 }]
      = some { supports_transparency := some false, num_samples := 0 }
    ∧ (GlConfig.supports_transparency
        { supports_transparency := some false, num_samples := 0 }).getD false = false := by
  exact ⟨rfl, rfl⟩

/-- C8 (amended): the reduce closure replaces the accumulator exactly when
the candidate gains transparency support over it or has strictly fewer
samples — so a candidate that merely gains transparency is always taken,
and between equally-opaque configurations the reduction tracks the minimal
sample count (the selected configuration is a list member with the minimum
sample count when no candidate supports transparency) — but the preference
is not lexicographic: transparency can subsequently be lost again to a
configuration with fewer samples. -/
theorem C8_amended_reduce_rule :
    (∀ accum config : GlConfig,
        config.supports_transparency.getD false = true →
        accum.supports_transparency.getD false = false →
        configReduceStep accum config = config)
    ∧ (∀ accum config : GlConfig,
        accum.supports_transparency.getD false = config.supports_transparency.getD false →
        configReduceStep accum config
          = if config.num_samples < accum.num_samples then config else accum)
    ∧ (∀ (c : GlConfig) (rest : List GlConfig),
        (∀ x ∈ c :: rest, x.supports_transparency.getD false = false) →
        reduceConfigs (c :: rest) = some (rest.foldl configReduceStep c)
        ∧ (rest.foldl configReduceStep c).num_samples
            = rest.foldl (fun a x => min a x.num_samples) c.num_samples
        ∧ rest.foldl configReduceStep c ∈ c :: rest) := by
  refine ⟨fun accum config hc ha => ?_, fun accum config hac => ?_,
    fun c rest h => ⟨rfl, reduceConfigs_opaque_min rest c h⟩⟩
  · simp [configReduceStep, hc, ha]
  · rcases hb : config.supports_transparency.getD false with _ | _ <;>
      rw [hb] at hac <;> simp [configReduceStep, hac, hb]

/-- C8 witness: the amended reduction rule evaluated on concrete
configurations — a transparency-gaining candidate is taken, and over an
all-opaque list the minimal sample count is selected. -/
theorem C8_witness :
    configReduceStep { supports_transparency := some false, num_samples := 0 }
        { supports_transparency := some true, num_samples := 4 }
      = { supports_transparency := some true, num_samples := 4 }
    ∧ (([{ supports_transparency := some false, num_samples := 2 }] :
          List GlConfig).foldl configReduceStep
            { supports_transparency := some false, num_samples := 4 }).num_samples
      = ([{ supports_transparency := some false, num_samples := 2 }] :
          List GlConfig).foldl (fun a x => min a x.num_samples) 4 := by
  constructor
  · exact C8_amended_reduce_rule.1
      { supports_transparency := some false, num_samples := 0 }
      { supports_transparency := some true, num_samples := 4 } (by decide) (by decide)
  · exact (C8_amended_reduce_rule.2.2
      { supports_transparency := some false, num_samples := 4 }
      [{ supports_transparency := some false, num_samples := 2 }] (by decide)).2.1

/-- Helper: a filter that accepts every rendered component leaves the
component segment of the frame unchanged. -/
lemma filter_map_renderComponent (p : RenderCmd → Bool) (components : List ℕ)
    (h : ∀ c : ℕ, p (RenderCmd.renderComponent c) = true) :
    (components.map RenderCmd.renderComponent).filter p
      = components.map RenderCmd.renderComponent := by
  refine List.filter_eq_self.mpr ?_
  intro a ha
  obtain ⟨c, _, rfl⟩ := List.mem_map.mp ha
  exact h c

/-- Helper: a filter that rejects every rendered component erases the
component segment of the frame. -/
lemma filter_map_renderComponent_nil (p : RenderCmd → Bool) (components : List ℕ)
    (h : ∀ c : ℕ, p (RenderCmd.renderComponent c) = false) :
    (components.map RenderCmd.renderComponent).filter p = [] := by
  refine List.filter_eq_nil_iff.mpr ?_
  intro a ha
  obtain ⟨c, _, rfl⟩ := List.mem_map.mp ha
  simp [h c]

/-- C4: for every frame rendered by SkiaRenderer::render, a solid-color
window background produces exactly one canvas clear with that color and no
background rectangle, and a gradient/image background produces no clear and
exactly one full-window background rectangle, which is issued before every
component is rendered. -/
theorem C4_background_clear_vs_rect (has_notifier has_metrics_collector : Bool)
    (components : List ℕ) :
    (∀ clear_color : ℕ,
        (renderFrameCommands (some (Brush.solidColor clear_color)) has_notifier
            has_metrics_collector components).filter RenderCmd.isClear
          = [RenderCmd.clear clear_color]
        ∧ (renderFrameCommands (some (Brush.solidColor clear_color)) has_notifier
            has_metrics_collector components).filter RenderCmd.isDrawBackgroundRect = [])
    ∧ (∀ brush : Brush, brush.isSolidColor = false →
        (renderFrameCommands (some brush) has_notifier has_metrics_collector
            components).filter RenderCmd.isClear = []
        ∧ (renderFrameCommands (some brush) has_notifier has_metrics_collector
            components).filter
              (fun cmd => cmd.isDrawBackgroundRect || cmd.isRenderComponent)
          = RenderCmd.drawBackgroundRect brush
              :: components.map RenderCmd.renderComponent) := by
  constructor
  · intro clear_color
    constructor
    · cases has_notifier <;> cases has_metrics_collector <;>
        simp [renderFrameCommands, List.filter_append, RenderCmd.isClear,
          filter_map_renderComponent_nil]
    · cases has_notifier <;> cases has_metrics_collector <;>
        simp [renderFrameCommands, List.filter_append, RenderCmd.isDrawBackgroundRect,
          filter_map_renderComponent_nil]
  · intro brush hb
    constructor
    · cases brush <;> simp [Brush.isSolidColor] at hb <;> cases has_notifier <;> cases has_metrics_collector <;>
        simp [renderFrameCommands, List.filter_append, RenderCmd.isClear,
          filter_map_renderComponent_nil]
    · cases brush <;> simp [Brush.isSolidColor] at hb <;> cases has_notifier <;> cases has_metrics_collector <;>
        simp [renderFrameCommands, List.filter_append, RenderCmd.isClear,
          RenderCmd.isDrawBackgroundRect, RenderCmd.isRenderComponent,
          filter_map_renderComponent, filter_map_renderComponent_nil]

/-- C4 witness: the frame protocol evaluated on a concrete frame — solid
background color 7 with components [4, 5], and a linear-gradient background
with component [4]. -/
theorem C4_witness :
    ((renderFrameCommands (some (Brush.solidColor 7)) true false [4, 5]).filter
        RenderCmd.isClear = [RenderCmd.clear 7]
      ∧ (renderFrameCommands (some (Brush.solidColor 7)) true false [4, 5]).filter
        RenderCmd.isDrawBackgroundRect = [])
    ∧ ((renderFrameCommands (some (Brush.linearGradient 3)) true false [4]).filter
        RenderCmd.isClear = []
      ∧ (renderFrameCommands (some (Brush.linearGradient 3)) true false [4]).filter
          (fun cmd => cmd.isDrawBackgroundRect || cmd.isRenderComponent)
        = RenderCmd.drawBackgroundRect (Brush.linearGradient 3)
            :: ([4] : List ℕ).map RenderCmd.renderComponent) := by
  exact ⟨(C4_background_clear_vs_rect true false [4, 5]).1 7,
    (C4_background_clear_vs_rect true false [4]).2 (Brush.linearGradient 3) rfl⟩

/-- C6: the hit-test query returns byte offset 0 whenever either scaled
constraint dimension is non-positive, regardless of position; with positive
constraints it shapes with both bounds and returns the hit byte offset
(0 when the hit misses) mapped through the caller-supplied
visual-to-logical offset function.  The query is a total function — it
cannot fail. -/
theorem C6_hit_test_behavior (hit : HitOracle) (visual_to_logical : ℕ → ℕ)
    (text_input : TextInput) (pos : ℚ × ℚ) (font_request : FontRequest)
    (scale_factor : ℚ) :
    (text_input.width * scale_factor ≤ 0 ∨ text_input.height * scale_factor ≤ 0 →
      text_input_byte_offset_for_position hit visual_to_logical text_input pos
        font_request scale_factor = 0)
    ∧ (0 < text_input.width * scale_factor → 0 < text_input.height * scale_factor →
      text_input_byte_offset_for_position hit visual_to_logical text_input pos
          font_request scale_factor
        = visual_to_logical
            ((hit text_input.text ((font_request.pixel_size.getD DEFAULT_FONT_SIZE)
                * scale_factor) (text_input.width * scale_factor)
              (text_input.height * scale_factor) (pos.1 * scale_factor)
              (pos.2 * scale_factor)).getD 0)) := by
  constructor
  · intro h
    simp only [text_input_byte_offset_for_position]
    rw [if_pos h]
  · intro hw hh
    simp only [text_input_byte_offset_for_position]
    rw [if_neg (by push_neg; exact ⟨hw, hh⟩)]

/-- C6 witness: the hit-test query evaluated on concrete inputs — a 2×3
input with a hit oracle answering byte 5, and a degenerate zero-width
input. -/
theorem C6_witness :
    text_input_byte_offset_for_position (fun _ _ _ _ _ _ => some 5) id
        { width := 2, height := 3, text := "x",
          cursor_position_byte_offset := 0, text_cursor_width := 1 } (1, 1)
        { pixel_size := some 16 } 1 = 5
    ∧ text_input_byte_offset_for_position (fun _ _ _ _ _ _ => some 5) id
        { width := 0, height := 3, text := "x",
          cursor_position_byte_offset := 0, text_cursor_width := 1 } (1, 1)
        { pixel_size := some 16 } 1 = 0 := by
  constructor
  · have h := (C6_hit_test_behavior (fun _ _ _ _ _ _ => some 5) id
      { width := 2, height := 3, text := "x",
        cursor_position_byte_offset := 0, text_cursor_width := 1 } (1, 1)
      { pixel_size := some 16 } 1).2 (by norm_num) (by norm_num)
    simpa using h
  · exact (C6_hit_test_behavior (fun _ _ _ _ _ _ => some 5) id
      { width := 0, height := 3, text := "x",
        cursor_position_byte_offset := 0, text_cursor_width := 1 } (1, 1)
      { pixel_size := some 16 } 1).1 (Or.inl (by norm_num))

/-- C3: contrary to the claim, an absent max_width is not passed to the
shaping engine as an unconstrained width: text_size feeds
`max_width.map(|w| w * scale_factor).unwrap_or_default()` — i.e. a zero
width bound — to `set_size` (so measuring with `None` behaves exactly like
measuring with `Some(0)`, and differs observably from the unconstrained
measurement the spec describes, which `TextLayout::new` implements with
`f32::MAX`).  The rest of the claim holds: for the "Hi" scenario at font
size 16 and scale factor 1, if the engine lays out a single line of
positive shaped advance w ≤ 31, the result is height 16 and a width
strictly between 0 and 32. -/
theorem C3_text_size_zero_width_bound :
    (∀ (shape : Shaper) (font_request : FontRequest) (text : String) (scale_factor : ℚ),
        text_size shape font_request text none scale_factor
          = text_size shape font_request text (some 0) scale_factor)
    ∧ text_size boundSensitiveShaper { pixel_size := some 16 } "Hi" none 1
        ≠ text_size_spec boundSensitiveShaper { pixel_size := some 16 } "Hi" none 1
    ∧ (∀ (shape : Shaper) (w : ℚ),
        shape "Hi" 16 0 F32_MAX = [[w]] → 0 < w → w ≤ 31 →
        text_size shape { pixel_size := some 16 } "Hi" none 1 = ((⌈w⌉ : ℚ), 16)
        ∧ 0 < ((⌈w⌉ : ℚ)) ∧ ((⌈w⌉ : ℚ)) < 32) := by
  refine ⟨?_, ?_, ?_⟩
  · intro shape font_request text scale_factor
    simp [text_size]
  · have h1 : text_size boundSensitiveShaper { pixel_size := some 16 } "Hi" none 1
        = (10, 16) := by
      norm_num [text_size, boundSensitiveShaper, F32_MAX]
    have h2 : text_size_spec boundSensitiveShaper { pixel_size := some 16 } "Hi" none 1
        = (20, 16) := by
      norm_num [text_size_spec, boundSensitiveShaper, F32_MAX]
    rw [h1, h2]
    norm_num [Prod.ext_iff]
  · intro shape w hsh hw0 hw31
    have hceil_pos : (0 : ℤ) < ⌈w⌉ := Int.ceil_pos.mpr hw0
    have hceil_le : ⌈w⌉ ≤ (31 : ℤ) := Int.ceil_le.mpr (by exact_mod_cast hw31)
    refine ⟨?_, by exact_mod_cast hceil_pos, ?_⟩
    · simp [text_size, hsh, max_eq_right hw0.le]
    · have h31 : ((⌈w⌉ : ℚ)) ≤ 31 := by exact_mod_cast hceil_le
      linarith

/-- C3 witness: measuring "Hi" with a shaping oracle that reports a single
line of advance 18 yields width 18 and height 16. -/
theorem C3_witness :
    text_size (fun _ _ _ _ => [[18]]) { pixel_size := some 16 } "Hi" none 1
        = ((18 : ℚ), 16)
    ∧ (0 : ℚ) < 18 ∧ (18 : ℚ) < 32 := by
  have h := C3_text_size_zero_width_bound.2.2 (fun _ _ _ _ => [[(18 : ℚ)]]) 18 rfl
    (by norm_num) (by norm_num)
  have hc : ((⌈(18 : ℚ)⌉ : ℚ)) = 18 := by norm_num
  rw [hc] at h
  exact h

/-- C5: the round-trip claim fails because
`text_input_cursor_rect_for_byte_offset` never reads its `byte_offset`
argument — its result is the same for every requested offset (first
conjunct), as the cursor it locates is always
`text_input.cursor_position_byte_offset()`.  Consequently, on the concrete
left-to-right, unwrapped two-glyph layout of "ab" with the input's own
cursor at byte 0, hit-testing the origin of the rectangle requested for
byte offset 1 returns 0, not 1 (second conjunct). -/
theorem C5_cursor_rect_ignores_byte_offset :
    (∀ (graphemes : GraphemeOracle) (layout_runs : RunsOracle)
        (text_input : TextInput) (font_request : FontRequest) (scale_factor : ℚ)
        (n m : ℕ),
        text_input_cursor_rect_for_byte_offset graphemes layout_runs text_input n
            font_request scale_factor
          = text_input_cursor_rect_for_byte_offset graphemes layout_runs text_input m
            font_request scale_factor)
    ∧ text_input_byte_offset_for_position demoHit id demoTextInput
        ((text_input_cursor_rect_for_byte_offset demoGraphemes demoRuns demoTextInput 1
            demoFontRequest 1).x,
         (text_input_cursor_rect_for_byte_offset demoGraphemes demoRuns demoTextInput 1
            demoFontRequest 1).y)
        demoFontRequest 1 ≠ 1 := by
  constructor
  · intro graphemes layout_runs text_input font_request scale_factor n m
    rfl
  · have hrect : text_input_cursor_rect_for_byte_offset demoGraphemes demoRuns
        demoTextInput 1 demoFontRequest 1
        = { x := 0, y := 0, width := 1, height := 16 } := by
      norm_num [text_input_cursor_rect_for_byte_offset, demoRuns, demoGraphemes,
        demoTextInput, demoFontRequest, cursor_glyph_opt, findCursorGlyph, runCursorX,
        asI32, f32Round]
    rw [hrect]
    norm_num [text_input_byte_offset_for_position, demoHit, demoTextInput,
      demoFontRequest]
